import Mathlib

/-!
Verification of the polling application against its specification.

The definitions below are shallow embeddings of the TypeScript source:

* string values are modelled as Lean `String`, with the JavaScript string
  operations (trim, toLowerCase, split, length) re-implemented over the
  underlying character list so that they compute inside the kernel; for the
  ASCII inputs appearing in this development they agree with the JavaScript
  semantics;
* `formData.get` results are modelled by `JSVal` (a string, `null`, or
  `undefined`);
* database calls are modelled by passing their outcomes as explicit
  parameters (a lookup result, an insert/update result), and the
  mutating `deletePoll` action is modelled as an explicit transition on a
  `Database` value;
* the JavaScript number `-Infinity` produced by `Math.max()` on an empty
  spread is modelled by `Option Nat` (`none` standing for `-Infinity`,
  which equals no vote count and is found by `indexOf` at no index).
-/

/-- Characters of a string, with JavaScript string ops defined over them. -/
def jsChars (s : String) : List Char := s.toList

/-- Length of a string in characters (JavaScript `.length` for ASCII data). -/
def jsLength (s : String) : Nat := (jsChars s).length

/-- Drop whitespace on both ends of a character list. -/
def trimChars (cs : List Char) : List Char :=
  ((cs.dropWhile Char.isWhitespace).reverse.dropWhile Char.isWhitespace).reverse

/-- JavaScript `String.prototype.trim`. -/
def jsTrim (s : String) : String := ⟨trimChars (jsChars s)⟩

/-- JavaScript `String.prototype.toLowerCase` (ASCII range). -/
def jsToLower (s : String) : String := ⟨(jsChars s).map Char.toLower⟩

/-- Accumulator-based splitting of a character list on the comma character. -/
def splitCommaAux : List Char → List Char → List String
  | [], acc => [⟨acc.reverse⟩]
  | c :: rest, acc =>
      if c = ',' then ⟨acc.reverse⟩ :: splitCommaAux rest []
      else splitCommaAux rest (c :: acc)

/-- JavaScript `s.split(",")`. -/
def jsSplitComma (s : String) : List String := splitCommaAux (jsChars s) []

/-- Result of `formData.get`: a string or `null`; `undefined` is included
because the source compares against it. -/
inductive JSVal where
  | str (s : String)
  | null
  | undef
deriving DecidableEq

/-- JavaScript falsiness of a `formData.get` result (`!x` in the source):
`null`, `undefined` and the empty string are falsy. -/
def jsFalsy : JSVal → Bool
  | .str s => s == ""
  | .null => true
  | .undef => true

/-- JavaScript ToString coercion as applied by `parseInt` and `RegExp.test`. -/
def jsvalCoerceStr : JSVal → String
  | .str s => s
  | .null => "null"
  | .undef => "undefined"

/-- Numeric value of a list of decimal digit characters. -/
def digitsToNat (ds : List Char) : Nat :=
  ds.foldl (fun a c => a * 10 + (c.toNat - 48)) 0

/-- JavaScript `parseInt(x, 10)`: coerce to string, skip leading whitespace,
read an optional sign and then the longest run of leading decimal digits;
`none` models `NaN`. -/
def jsParseInt (v : JSVal) : Option Int :=
  let cs := (jsChars (jsvalCoerceStr v)).dropWhile Char.isWhitespace
  match cs with
  | '-' :: rest =>
      let ds := rest.takeWhile Char.isDigit
      if ds.isEmpty then none else some (-(digitsToNat ds : Int))
  | '+' :: rest =>
      let ds := rest.takeWhile Char.isDigit
      if ds.isEmpty then none else some ((digitsToNat ds : Int))
  | _ =>
      let ds := cs.takeWhile Char.isDigit
      if ds.isEmpty then none else some ((digitsToNat ds : Int))

/-- Hexadecimal digit test, case insensitive, mirroring the `[0-9a-f]`
character class with the `i` flag. -/
def isHexDigit (c : Char) : Bool :=
  c.isDigit || (decide ('a' ≤ c) && decide (c ≤ 'f')) ||
    (decide ('A' ≤ c) && decide (c ≤ 'F'))

/-- Position-wise character test for the UUID v4 regular expression in
src/app/api/votes/route.ts (`isValidUUID`): hyphens at positions 8, 13, 18
and 23, a `[1-5]` version digit at 14, a `[89ab]` (case-insensitive) variant
digit at 19, hex digits elsewhere. -/
def uuidCharOk (i : Nat) (c : Char) : Bool :=
  if i = 8 ∨ i = 13 ∨ i = 18 ∨ i = 23 then c == '-'
  else if i = 14 then decide ('1' ≤ c) && decide (c ≤ '5')
  else if i = 19 then
    c == '8' || c == '9' || c == 'a' || c == 'b' || c == 'A' || c == 'B'
  else isHexDigit c

/-- Model of `isValidUUID` from src/app/api/votes/route.ts: the anchored
regular expression accepts exactly the 36-character strings whose every
position satisfies `uuidCharOk`. -/
def isValidUUID (s : String) : Bool :=
  let cs := jsChars s
  cs.length == 36 && cs.enum.all (fun p => uuidCharOk p.1 p.2)

/-! ## Vote aggregation (src/lib/pollActions.ts `getUserPollsStats`,
src/app/api/polls/manage/route.ts `GET`, and the per-poll votes `GET`) -/

/-- Per-option vote counts, from the source line
`poll.options.map((_, index) => poll.votes?.filter(v => v.option_index === index).length || 0)`:
the callback uses only the position, so the map over `options` is rendered
as a map over the indices `0 .. options.length - 1`. A vote is modelled by
its `option_index` value (an integer, as stored). -/
def computeVoteCounts (options : List String) (votes : List Int) : List Nat :=
  (List.range options.length).map fun i =>
    (votes.filter (fun v => v == (i : Int))).length

/-- JavaScript `Math.max(...l)` on a list of naturals; `none` models the
`-Infinity` returned for an empty spread. -/
def jsMathMax : List Nat → Option Nat
  | [] => none
  | x :: xs => some (xs.foldl max x)

/-- JavaScript `Array.prototype.indexOf` on a list of naturals: index of the
first occurrence, `-1` when absent. -/
def jsIndexOfAux (v : Nat) : List Nat → Int
  | [] => -1
  | x :: xs =>
      if x = v then 0
      else
        let r := jsIndexOfAux v xs
        if r = -1 then -1 else r + 1

/-- `voteCounts.indexOf(m)` where `m` is a `Math.max` result; `-Infinity`
(`none`) is found at no index, giving `-1`. -/
def jsIndexOf (l : List Nat) : Option Nat → Int
  | none => -1
  | some v => jsIndexOfAux v l

/-- JavaScript `poll.options[i] || "No votes"`: out-of-range access yields
`undefined`, which is falsy, as is the empty string. -/
def jsOptionsAt (options : List String) (i : Int) : String :=
  if h : 0 ≤ i ∧ i.toNat < options.length then
    let s := options.get ⟨i.toNat, h.2⟩
    if s = "" then "No votes" else s
  else "No votes"

/-- The derived statistics record built per poll by `getUserPollsStats`
(src/lib/pollActions.ts lines 69-86) and by the manage route `GET`. -/
structure PollStats where
  voteCounts : List Nat
  totalVotes : Nat
  mostVotedOption : Int
  mostVotedCount : Option Nat
  mostVotedOptionText : String
deriving DecidableEq

/-- The statistics computation of src/lib/pollActions.ts lines 69-86,
as a pure function of the option list and the option indices of the votes. -/
def getPollStats (options : List String) (votes : List Int) : PollStats :=
  let voteCounts := computeVoteCounts options votes
  let totalVotes := voteCounts.foldl (fun sum count => sum + count) 0
  let m := jsMathMax voteCounts
  { voteCounts := voteCounts
    totalVotes := totalVotes
    mostVotedOption := jsIndexOf voteCounts m
    mostVotedCount := m
    mostVotedOptionText := jsOptionsAt options (jsIndexOf voteCounts m) }

/-! ## Vote admission (src/app/api/votes/route.ts `POST`) -/

/-- A row of the `votes` table. -/
structure Vote where
  id : Nat
  pollId : String
  votedBy : String
  optionIndex : Int
deriving DecidableEq

/-- Failure reported by a storage write; the uniqueness-constraint
collision on `votes (poll_id, voted_by)` is distinguished from other
failures because the specification treats it specially. -/
inductive DbError where
  | uniqueViolation
  | otherFailure
deriving DecidableEq

/-- The JSON body and status produced by the votes `POST` handler. Absent
body fields are `none`/`false`. -/
structure ApiResponse where
  status : Nat
  error : Option String
  success : Bool
  vote : Option Vote
  created : Bool
  updated : Bool
deriving DecidableEq

/-- An error response `NextResponse.json({error}, {status})`. -/
def jsonError (msg : String) (status : Nat) : ApiResponse :=
  { status := status, error := some msg, success := false, vote := none
    created := false, updated := false }

/-- The `POST /api/votes` handler (src/app/api/votes/route.ts lines 56-173).
Database interactions are passed in as oracles: `pollLookup` is the result
of the poll query (`none` = error or no row, `some options` = the parsed
option list of the poll), `existingVote` the result of the existing-vote lookup
(the found row id), and `updateRes`/`insertRes` the outcomes of the two
possible writes. -/
def votesPOST (session : Option String) (pollIdField optionField : JSVal)
    (pollLookup : Option (List String)) (existingVote : Option Nat)
    (updateRes insertRes : Except DbError Vote) : ApiResponse :=
  match session with
  | none => jsonError "Unauthorized" 401
  | some _ =>
      if jsFalsy pollIdField = true ∨ optionField = JSVal.undef then
        jsonError "Poll ID and option are required" 400
      else if isValidUUID (jsvalCoerceStr pollIdField) = false then
        jsonError "Invalid poll ID format" 400
      else
        match jsParseInt optionField with
        | none => jsonError "Option must be a valid non-negative number" 400
        | some optionIndex =>
            if optionIndex < 0 then
              jsonError "Option must be a valid non-negative number" 400
            else
              match pollLookup with
              | none => jsonError "Poll not found" 404
              | some options =>
                  if optionIndex < 0 ∨ (options.length : Int) ≤ optionIndex then
                    jsonError "Invalid option index" 400
                  else
                    match existingVote with
                    | some _ =>
                        match updateRes with
                        | .error _ => jsonError "Failed to update vote" 500
                        | .ok row =>
                            { status := 200, error := none, success := true
                              vote := some row, created := false, updated := true }
                    | none =>
                        match insertRes with
                        | .error _ => jsonError "Failed to create vote" 500
                        | .ok row =>
                            { status := 200, error := none, success := true
                              vote := some row, created := true, updated := false }

/-! ## Poll creation validation (src/app/api/polls/route.ts `POST`) -/

/-- Falsiness of a possibly-null form field holding a string. -/
def jsFalsyOpt : Option String → Bool
  | none => true
  | some s => s == ""

/-- The option loop of src/app/api/polls/route.ts lines 90-102: walk the
options in order keeping the set of lower-cased options seen so far; on the
first violation push one error and break. The `Set` is modelled by the list
of elements added so far (membership is what the loop consults). -/
def pollOptionScan : List String → List String → Option String
  | [], _ => none
  | o :: rest, seen =>
      if jsLength o < 1 ∨ 100 < jsLength o then
        some "Each option must be between 1 and 100 characters"
      else if jsToLower o ∈ seen then
        some "All options must be unique"
      else
        pollOptionScan rest (jsToLower o :: seen)

/-- Outcome of poll-creation validation: the first reported error with its
HTTP status, or the validated question and option list that the handler
goes on to insert. -/
inductive ValidationOutcome where
  | rejected (message : String) (status : Nat)
  | accepted (question : String) (options : List String)
deriving DecidableEq

/-- The validation portion of the `POST /api/polls` handler
(src/app/api/polls/route.ts lines 53-113), from the form fields to either
the first error response or the validated data passed to the insert. -/
def pollsPOSTValidate (question optionsString : Option String) : ValidationOutcome :=
  if jsFalsyOpt question = true ∨ jsFalsyOpt optionsString = true then
    .rejected "Question and options are required" 400
  else
    let q := question.getD ""
    let os := optionsString.getD ""
    if jsLength (jsTrim q) < 5 ∨ 200 < jsLength (jsTrim q) then
      .rejected "Question must be between 5 and 200 characters" 400
    else
      let options := ((jsSplitComma os).map jsTrim).filter (fun o => 0 < jsLength o)
      if options.length < 2 then
        .rejected "Please provide at least 2 options" 400
      else
        let optionErrors :=
          (match pollOptionScan options [] with
            | some e => [e]
            | none => []) ++
          (if 10 < options.length then ["Maximum 10 options allowed"] else [])
        match optionErrors with
        | e :: _ => .rejected e 400
        | [] => .accepted q options

/-! ## Poll deletion (src/lib/pollActions.ts `deletePoll`) -/

/-- A row of the `polls` table (columns not consulted by `deletePoll`
are omitted). -/
structure Poll where
  id : String
  createdBy : String
deriving DecidableEq

/-- The two tables touched by `deletePoll`. -/
structure Database where
  polls : List Poll
  votes : List Vote
deriving DecidableEq

/-- The `deletePoll` server action (src/lib/pollActions.ts lines 7-45) as a
transition on the database: first delete every vote whose `poll_id` matches
(no ownership filter), then delete the poll row matching both the id and
`created_by = session.id`. A failing delete is modelled as leaving its
table unchanged (`votesError`/`pollError` inject the storage failures the
source checks for). The returned `Option String` is the thrown error
message, `none` meaning the `{ success: true }` return. -/
def deletePoll (session : Option String) (votesError pollError : Bool)
    (db : Database) (pollId : String) : Database × Option String :=
  match session with
  | none => (db, some "Unauthorized")
  | some uid =>
      if votesError then (db, some "Failed to delete poll votes")
      else
        let db1 : Database :=
          { polls := db.polls, votes := db.votes.filter (fun v => !(v.pollId == pollId)) }
        if pollError then (db1, some "Failed to delete poll")
        else
          let db2 : Database :=
            { polls := db1.polls.filter (fun p => !(p.id == pollId && p.createdBy == uid))
              votes := db1.votes }
          (db2, none)

/-- A valid UUID used in concrete instantiations. -/
def sampleUUID : String := "123e4567-e89b-12d3-a456-426614174000"

/-- A concrete vote row standing for the result of a successful update. -/
def sampleUpdatedVote : Vote :=
  { id := 7, pollId := sampleUUID, votedBy := "user-1", optionIndex := 1 }

/-- A concrete vote row standing for the result of a successful insert. -/
def sampleCreatedVote : Vote :=
  { id := 8, pollId := sampleUUID, votedBy := "user-1", optionIndex := 1 }

/-! ## Theorems -/

/-- C1: the specification says a zero-vote poll has no most-voted option,
but the source computes `voteCounts.indexOf(Math.max(...voteCounts))`,
which on an all-zero count vector is index 0, and labels it with the text
of option 0: evaluated here on a two-option poll with no votes. -/
theorem pollStats_zero_votes_defaults_to_option_zero :
    (getPollStats ["Red", "Green"] []).totalVotes = 0 ∧
    (getPollStats ["Red", "Green"] []).mostVotedOption = 0 ∧
    (getPollStats ["Red", "Green"] []).mostVotedOptionText = "Red" := by
  decide

/-- C2: when the existing-vote lookup finds nothing and the subsequent
insert collides with the `(poll_id, voted_by)` uniqueness constraint, the
handler returns the generic 500 "Failed to create vote" instead of falling
back to an update, on an otherwise fully valid request. -/
theorem votesPOST_unique_violation_returns_500 :
    votesPOST (some "user-1") (JSVal.str sampleUUID) (JSVal.str "0")
        (some ["A", "B"]) none (Except.ok sampleUpdatedVote)
        (Except.error DbError.uniqueViolation)
      = jsonError "Failed to create vote" 500 := by
  decide

/-- C3: an authenticated non-owner calling `deletePoll` on a poll they do
not own: the vote-deletion step carries no ownership filter, so every vote
of the poll is deleted, the poll row survives the owner-filtered delete,
and the action reports success. -/
theorem deletePoll_nonowner_still_deletes_votes :
    deletePoll (some "mallory") false false
        { polls := [{ id := "p1", createdBy := "alice" }]
          votes := [{ id := 1, pollId := "p1", votedBy := "bob", optionIndex := 0 }] }
        "p1"
      = ({ polls := [{ id := "p1", createdBy := "alice" }], votes := [] }, none) := by
  decide

/-- C4 counterexample: an input of 11 options containing a case-insensitive
duplicate is rejected with the uniqueness error, not the count bound: the
source runs the per-option scan before it ever checks `options.length > 10`
and then reports `optionErrors[0]`. -/
theorem pollsPOSTValidate_eleven_options_dup :
    pollsPOSTValidate (some "What is your favorite letter?")
        (some "a,b,c,d,e,f,g,h,i,j,A")
      = ValidationOutcome.rejected "All options must be unique" 400 ∧
    pollsPOSTValidate (some "What is your favorite letter?")
        (some "a,b,c,d,e,f,g,h,i,j,A")
      ≠ ValidationOutcome.rejected "Maximum 10 options allowed" 400 := by
  decide

/-- C9 counterexample: on an empty option list the statistics record is not
empty and not free of fabricated most-voted data: it carries the sentinel
index `-1` and the fabricated label "No votes". -/
theorem pollStats_empty_options_fabricates_label :
    (getPollStats [] [0]).mostVotedOptionText = "No votes" ∧
    (getPollStats [] [0]).mostVotedOption = -1 := by
  decide

/-- C9 (amended): on an empty option list the computation does not fail and
returns empty vote counts with total 0, together with most-voted index
`-1`, most-voted count `-Infinity` (modelled `none`) and the placeholder
text "No votes", for every vote set. -/
theorem pollStats_empty_options_behavior (votes : List Int) :
    getPollStats [] votes =
      { voteCounts := [], totalVotes := 0, mostVotedOption := -1
        mostVotedCount := none, mostVotedOptionText := "No votes" } := by
  rfl

/-! ## Helper lemmas -/

/-- Unfolding of `getPollStats` to its record of components. -/
theorem getPollStats_def (options : List String) (votes : List Int) :
    getPollStats options votes =
      { voteCounts := computeVoteCounts options votes
        totalVotes := (computeVoteCounts options votes).foldl
          (fun sum count => sum + count) 0
        mostVotedOption := jsIndexOf (computeVoteCounts options votes)
          (jsMathMax (computeVoteCounts options votes))
        mostVotedCount := jsMathMax (computeVoteCounts options votes)
        mostVotedOptionText := jsOptionsAt options
          (jsIndexOf (computeVoteCounts options votes)
            (jsMathMax (computeVoteCounts options votes))) } := rfl

/-- The reduce in the source is the sum of the list. -/
theorem foldl_add_eq_sum_aux (l : List Nat) : ∀ a : Nat,
    l.foldl (fun sum count => sum + count) a = a + l.sum := by
  induction l with
  | nil => intro a; simp
  | cons x xs ih => intro a; simp [List.foldl_cons, ih, List.sum_cons]; ring

/-- The seed of a `foldl max` is a lower bound of the result. -/
theorem le_foldl_max_init (x : Nat) (xs : List Nat) : x ≤ xs.foldl max x := by
  induction xs generalizing x with
  | nil => simp
  | cons y ys ih =>
      simp only [List.foldl_cons]
      exact le_trans (le_max_left x y) (ih (max x y))

/-- Every list element is a lower bound of a `foldl max` over the list. -/
theorem le_foldl_max_mem {a : Nat} {xs : List Nat} (h : a ∈ xs) (x : Nat) :
    a ≤ xs.foldl max x := by
  induction xs generalizing x with
  | nil => cases h
  | cons y ys ih =>
      simp only [List.foldl_cons]
      rcases List.mem_cons.mp h with rfl | hm
      · exact le_trans (le_max_right x a) (le_foldl_max_init _ _)
      · exact ih hm (max x y)

/-- A `foldl max` result is the seed or one of the list elements. -/
theorem foldl_max_mem (x : Nat) (xs : List Nat) :
    xs.foldl max x = x ∨ xs.foldl max x ∈ xs := by
  induction xs generalizing x with
  | nil => left; rfl
  | cons y ys ih =>
      simp only [List.foldl_cons]
      rcases ih (max x y) with h | h
      · rcases max_choice x y with hx | hy
        · left; rw [h, hx]
        · right; rw [h, hy]; exact List.mem_cons_self y ys
      · right; exact List.mem_cons_of_mem y h

/-- For a present element, `indexOf` returns the first index holding it. -/
theorem jsIndexOfAux_spec {v : Nat} : ∀ {l : List Nat}, v ∈ l →
    ∃ i : Nat, jsIndexOfAux v l = (i : Int) ∧ l.get? i = some v ∧
      ∀ j, j < i → l.get? j ≠ some v := by
  intro l
  induction l with
  | nil => intro h; cases h
  | cons x xs ih =>
      intro h
      by_cases hx : x = v
      · refine ⟨0, ?_, ?_, ?_⟩
        · simp [jsIndexOfAux, hx]
        · simp [hx]
        · intro j hj; omega
      · have hv : v ∈ xs := by
          rcases List.mem_cons.mp h with rfl | hm
          · exact absurd rfl hx
          · exact hm
        obtain ⟨i, h1, h2, h3⟩ := ih hv
        refine ⟨i + 1, ?_, ?_, ?_⟩
        · simp only [jsIndexOfAux, if_neg hx]
          rw [if_neg (by rw [h1]; omega : ¬ (jsIndexOfAux v xs = -1))]
          rw [h1]; omega
        · simpa using h2
        · intro j hj
          cases j with
          | zero => simpa using hx
          | succ k =>
              have : k < i := by omega
              simpa using h3 k this

/-- Restricting the votes to the in-range ones does not change the votes
selected for an in-range option slot. -/
theorem filter_inrange_beq {N i : Nat} (hi : i < N) (votes : List Int) :
    (votes.filter fun v => decide (0 ≤ v) && decide (v < (N : Int))).filter
        (fun v => v == (i : Int))
      = votes.filter (fun v => v == (i : Int)) := by
  rw [List.filter_filter]
  have hfun : (fun v : Int => (v == (i : Int)) &&
      (decide (0 ≤ v) && decide (v < (N : Int)))) = fun v : Int => v == (i : Int) := by
    funext v
    by_cases hv : v = (i : Int)
    · subst hv
      have hlt2 : (i : Int) < (N : Int) := by exact_mod_cast hi
      have hge : (0 : Int) ≤ (i : Int) := by exact_mod_cast Nat.zero_le i
      simp [hlt2, hge]
    · simp [hv]
  rw [hfun]

/-- A string passing the UUID shape test is nonempty. -/
theorem isValidUUID_ne_empty {s : String} (h : isValidUUID s = true) : s ≠ "" := by
  intro hs
  rw [hs] at h
  have hfalse : isValidUUID "" = false := by decide
  rw [hfalse] at h
  cases h

/-- The `parseInt` coercion of `null` yields `NaN`. -/
theorem jsParseInt_null : jsParseInt JSVal.null = none := by decide

/-- The `parseInt` coercion of `undefined` yields `NaN`. -/
theorem jsParseInt_undef : jsParseInt JSVal.undef = none := by decide

/-! ## Remaining claim theorems -/

/-- C7: the computed total is exactly the sum of the computed count vector,
for every option list and every vote set. -/
theorem totalVotes_eq_sum_voteCounts (options : List String) (votes : List Int) :
    (getPollStats options votes).totalVotes
      = (getPollStats options votes).voteCounts.sum := by
  show (computeVoteCounts options votes).foldl (fun sum count => sum + count) 0
      = (computeVoteCounts options votes).sum
  rw [foldl_add_eq_sum_aux, Nat.zero_add]

/-- C8: a vote whose option index is outside the option range contributes
nothing: the statistics of a vote set equal the statistics of its in-range
restriction, so every out-of-range vote is ignored without error. -/
theorem aggregator_ignores_out_of_range (options : List String) (votes : List Int) :
    getPollStats options votes
      = getPollStats options
          (votes.filter fun v => decide (0 ≤ v) && decide (v < (options.length : Int))) := by
  have hc : computeVoteCounts options
        (votes.filter fun v => decide (0 ≤ v) && decide (v < (options.length : Int)))
      = computeVoteCounts options votes := by
    unfold computeVoteCounts
    apply List.map_congr_left
    intro i hi
    obtain ⟨a, ha, rfl⟩ : ∃ a : Nat, a < options.length ∧ i = (a : Int) := by
      simpa using hi
    rw [filter_inrange_beq ha]
  rw [getPollStats_def, getPollStats_def, hc]

/-- C6: when at least one vote was counted, the most-voted index points at
an entry that is a maximum of the count vector and every strictly earlier
entry is strictly smaller, so ties go to the lowest index. -/
theorem mostVoted_first_index_of_max (options : List String) (votes : List Int)
    (h : 0 < (getPollStats options votes).totalVotes) :
    ∃ i : Nat, (getPollStats options votes).mostVotedOption = (i : Int) ∧
      ∃ m : Nat, (getPollStats options votes).voteCounts.get? i = some m ∧
        (∀ c ∈ (getPollStats options votes).voteCounts, c ≤ m) ∧
        ∀ j, j < i → ∀ c,
          (getPollStats options votes).voteCounts.get? j = some c → c < m := by
  rw [getPollStats_def] at h ⊢
  simp only at h ⊢
  rw [foldl_add_eq_sum_aux, Nat.zero_add] at h
  obtain ⟨c, cs, hcons⟩ : ∃ c cs, computeVoteCounts options votes = c :: cs := by
    cases hvc : computeVoteCounts options votes with
    | nil => rw [hvc] at h; simp at h
    | cons c cs => exact ⟨c, cs, rfl⟩
  rw [hcons] at h ⊢
  have hmax : jsMathMax (c :: cs) = some (cs.foldl max c) := rfl
  have hMmem : cs.foldl max c ∈ c :: cs := by
    rcases foldl_max_mem c cs with h1 | h1
    · rw [h1]; exact List.mem_cons_self c cs
    · exact List.mem_cons_of_mem c h1
  have hub : ∀ a ∈ c :: cs, a ≤ cs.foldl max c := by
    intro a ha
    rcases List.mem_cons.mp ha with rfl | hm
    · exact le_foldl_max_init _ _
    · exact le_foldl_max_mem hm _
  obtain ⟨i, h1, h2, h3⟩ := jsIndexOfAux_spec hMmem
  refine ⟨i, ?_, cs.foldl max c, h2, hub, ?_⟩
  · rw [hmax]; exact h1
  · intro j hj cc hcc
    have hne : cc ≠ cs.foldl max c := by
      intro he; rw [he] at hcc; exact h3 j hj hcc
    exact lt_of_le_of_ne (hub cc (List.get?_mem hcc)) hne

/-- C6 witness: the canonical tie vector `[2, 2, 1]` arises from three
options and five votes; the theorem applies and the most-voted index is 0. -/
theorem mostVoted_first_index_of_max_witness :
    0 < (getPollStats ["A", "B", "C"] [0, 0, 1, 1, 2]).totalVotes ∧
    (getPollStats ["A", "B", "C"] [0, 0, 1, 1, 2]).voteCounts = [2, 2, 1] ∧
    (getPollStats ["A", "B", "C"] [0, 0, 1, 1, 2]).mostVotedOption = 0 ∧
    (∃ i : Nat,
      (getPollStats ["A", "B", "C"] [0, 0, 1, 1, 2]).mostVotedOption = (i : Int) ∧
      ∃ m : Nat,
        (getPollStats ["A", "B", "C"] [0, 0, 1, 1, 2]).voteCounts.get? i = some m ∧
        (∀ c ∈ (getPollStats ["A", "B", "C"] [0, 0, 1, 1, 2]).voteCounts, c ≤ m) ∧
        ∀ j, j < i → ∀ c,
          (getPollStats ["A", "B", "C"] [0, 0, 1, 1, 2]).voteCounts.get? j = some c →
            c < m) :=
  ⟨by decide, by decide, by decide,
    mostVoted_first_index_of_max ["A", "B", "C"] [0, 0, 1, 1, 2] (by decide)⟩

/-- C5: on an admitted vote (authenticated session, well-formed poll id,
numeric in-range option) with succeeding storage writes, the handler
updates in place and tags `updated` when a vote row exists, and inserts
and tags `created` when none does, returning the resulting row. -/
theorem votesPOST_insert_or_update (u pid : String) (optField : JSVal) (n : Int)
    (opts : List String) (existing : Option Nat) (urow irow : Vote)
    (hpid : isValidUUID pid = true)
    (hparse : jsParseInt optField = some n)
    (hn : 0 ≤ n) (hlt : n < (opts.length : Int)) :
    votesPOST (some u) (JSVal.str pid) optField (some opts) existing
        (Except.ok urow) (Except.ok irow)
      = { status := 200, error := none, success := true
          vote := some (if existing.isSome then urow else irow)
          created := existing.isNone, updated := existing.isSome } := by
  have hne : pid ≠ "" := isValidUUID_ne_empty hpid
  have h1 : ¬ (jsFalsy (JSVal.str pid) = true ∨ optField = JSVal.undef) := by
    push_neg
    refine ⟨by simp [jsFalsy, hne], ?_⟩
    intro he
    rw [he, jsParseInt_undef] at hparse
    cases hparse
  have h2 : ¬ (isValidUUID (jsvalCoerceStr (JSVal.str pid)) = false) := by
    simp [jsvalCoerceStr, hpid]
  have h3 : ¬ (n < 0) := not_lt.mpr hn
  have h4 : ¬ (n < 0 ∨ (opts.length : Int) ≤ n) := by
    push_neg
    exact ⟨hn, hlt⟩
  simp only [votesPOST, hparse, if_neg h1, if_neg h2, if_neg h3, if_neg h4]
  cases existing <;> simp

/-- C5 witness: a concrete admitted vote on a two-option poll, once with an
existing vote row (updated) checked through the theorem. -/
theorem votesPOST_insert_or_update_witness :
    isValidUUID sampleUUID = true ∧
    jsParseInt (JSVal.str "1") = some 1 ∧
    (0 : Int) ≤ 1 ∧ (1 : Int) < ((["A", "B"] : List String).length : Int) ∧
    votesPOST (some "user-1") (JSVal.str sampleUUID) (JSVal.str "1")
        (some ["A", "B"]) (some 7) (Except.ok sampleUpdatedVote)
        (Except.ok sampleCreatedVote)
      = { status := 200, error := none, success := true
          vote := some sampleUpdatedVote, created := false, updated := true } := by
  refine ⟨by decide, by decide, by decide, by decide, ?_⟩
  have h := votesPOST_insert_or_update "user-1" sampleUUID (JSVal.str "1") 1
      ["A", "B"] (some 7) sampleUpdatedVote sampleCreatedVote
      (by decide) (by decide) (by decide) (by decide)
  simpa using h

/-- C10: with the option form field absent (`formData.get` returns `null`),
the required-fields check does not fire because `null` is compared against
`undefined`; the request reaches the numeric check and is rejected with
"Option must be a valid non-negative number", whatever the database holds. -/
theorem votesPOST_missing_option_numeric_error (u pid : String)
    (pollLookup : Option (List String)) (existing : Option Nat)
    (ur ir : Except DbError Vote)
    (hpid : isValidUUID pid = true) :
    votesPOST (some u) (JSVal.str pid) JSVal.null pollLookup existing ur ir
      = jsonError "Option must be a valid non-negative number" 400 := by
  have hne : pid ≠ "" := isValidUUID_ne_empty hpid
  have h1 : ¬ (jsFalsy (JSVal.str pid) = true ∨ JSVal.null = JSVal.undef) := by
    push_neg
    exact ⟨by simp [jsFalsy, hne], by intro he; cases he⟩
  have h2 : ¬ (isValidUUID (jsvalCoerceStr (JSVal.str pid)) = false) := by
    simp [jsvalCoerceStr, hpid]
  simp only [votesPOST, jsParseInt_null, if_neg h1, if_neg h2]

/-- C10 witness: a concrete request with a valid poll id and no option
field is rejected by the numeric check. -/
theorem votesPOST_missing_option_numeric_error_witness :
    isValidUUID sampleUUID = true ∧
    votesPOST (some "user-1") (JSVal.str sampleUUID) JSVal.null none none
        (Except.error DbError.otherFailure) (Except.error DbError.otherFailure)
      = jsonError "Option must be a valid non-negative number" 400 :=
  ⟨by decide,
    votesPOST_missing_option_numeric_error "user-1" sampleUUID none none
      (Except.error DbError.otherFailure) (Except.error DbError.otherFailure)
      (by decide)⟩

/-- C4 (amended): validation reports the first violated rule in the order
the source checks them: required fields, question length after trimming,
option count below 2, then the per-option scan (per option, length before
case-insensitive duplicate), and only after a clean scan the count bound
above 10. -/
theorem pollsPOSTValidate_rule_order (question optionsString : Option String) :
    pollsPOSTValidate question optionsString =
      if jsFalsyOpt question = true ∨ jsFalsyOpt optionsString = true then
        ValidationOutcome.rejected "Question and options are required" 400
      else if jsLength (jsTrim (question.getD "")) < 5 ∨
          200 < jsLength (jsTrim (question.getD "")) then
        ValidationOutcome.rejected "Question must be between 5 and 200 characters" 400
      else if (((jsSplitComma (optionsString.getD "")).map jsTrim).filter
          (fun o => 0 < jsLength o)).length < 2 then
        ValidationOutcome.rejected "Please provide at least 2 options" 400
      else
        match pollOptionScan (((jsSplitComma (optionsString.getD "")).map jsTrim).filter
            (fun o => 0 < jsLength o)) [] with
        | some e => ValidationOutcome.rejected e 400
        | none =>
            if 10 < (((jsSplitComma (optionsString.getD "")).map jsTrim).filter
                (fun o => 0 < jsLength o)).length then
              ValidationOutcome.rejected "Maximum 10 options allowed" 400
            else
              ValidationOutcome.accepted (question.getD "")
                (((jsSplitComma (optionsString.getD "")).map jsTrim).filter
                  (fun o => 0 < jsLength o)) := by
  by_cases h1 : jsFalsyOpt question = true ∨ jsFalsyOpt optionsString = true
  · simp [pollsPOSTValidate, h1]
  · by_cases h2 : jsLength (jsTrim (question.getD "")) < 5 ∨
        200 < jsLength (jsTrim (question.getD ""))
    · simp [pollsPOSTValidate, h1, h2]
    · by_cases h3 : (((jsSplitComma (optionsString.getD "")).map jsTrim).filter
          (fun o => 0 < jsLength o)).length < 2
      · simp [pollsPOSTValidate, h1, h2, h3]
      · cases hscan : pollOptionScan (((jsSplitComma (optionsString.getD "")).map jsTrim).filter
            (fun o => 0 < jsLength o)) [] with
        | some e => simp [pollsPOSTValidate, h1, h2, h3, hscan]
        | none =>
            by_cases h4 : 10 < (((jsSplitComma (optionsString.getD "")).map jsTrim).filter
                (fun o => 0 < jsLength o)).length
            · simp [pollsPOSTValidate, h1, h2, h3, hscan, h4]
            · simp [pollsPOSTValidate, h1, h2, h3, hscan, h4]
